import Mathlib

/-!
Shallow embedding of the e-commerce analytics pipeline
(`src/data_loader.py` and `src/business_metrics.py`).

Tables are lists of record structures; pandas column operations become
maps/filters/folds over those lists.  Monetary amounts are modelled as
exact rationals.  Where the Python code performs numpy floating-point
division whose denominator can be zero, the result is modelled by the
`NpFloat` type, which makes the silently produced `inf`/`-inf`/`nan`
values explicit; Python integer division by zero is modelled as an
`Except` error (`ZeroDivisionError`).
-/

/-- NpFloat models the values a numpy float expression can take in the
growth-rate computations: an ordinary (exact) number, positive or
negative infinity, or NaN.  numpy produces `inf`/`-inf`/`nan` from
division by zero without raising. -/
inductive NpFloat where
  | num (q : ℚ)
  | inf
  | ninf
  | nan
deriving DecidableEq, Repr

/-- Growth-rate expression `((cur - prev) / prev) * 100` as evaluated by
numpy floats: when `prev = 0` the division yields `inf`, `-inf` or `nan`
according to the sign of the numerator (silently, no exception);
otherwise the exact rational value. -/
def growthRate (cur prev : ℚ) : NpFloat :=
  if prev = 0 then
    if cur - prev > 0 then .inf
    else if cur - prev < 0 then .ninf
    else .nan
  else .num ((cur - prev) / prev * 100)

/-- Growth rate between two `NpFloat` operands; a NaN operand (e.g. the
mean of an empty series) propagates to NaN.  Infinite operands do not
arise in the embedded pipeline. -/
def growthRateNp : NpFloat → NpFloat → NpFloat
  | .num c, .num p => growthRate c p
  | _, _ => .nan

/-- Insertion of `x` into `l` before the first element `y` with
`le x y = true`.  With `le x y` meaning "x may precede y", this models a
stable sort step: a newly inserted element goes before the elements it
ties with only when `le` says so. -/
def insertSorted (le : α → α → Bool) (x : α) : List α → List α
  | [] => [x]
  | y :: ys => if le x y then x :: y :: ys else y :: insertSorted le x ys

/-- Stable insertion sort with comparison `le`; models pandas `groupby`
key ordering (ascending, distinct keys) and the ascending argsort
underlying `sort_values`. -/
def sortBy (le : α → α → Bool) (l : List α) : List α :=
  l.foldr (insertSorted le) []

/-- Pandas `sort_values(..., ascending=False)` (default
`kind='quicksort'`): pandas computes an ascending argsort and reverses it
(`nargsort`), so the descending result is the reversal of the ascending
one and tied rows come out in reversed pre-sort order — the descending
sort is not stable.  The ascending argsort itself is modelled as stable:
numpy's introsort runs insertion sort at the array sizes exercised here,
and for larger arrays the unstable kind's tie order is
implementation-defined. -/
def sortValuesDesc (le : α → α → Bool) (l : List α) : List α :=
  (sortBy le l).reverse

/-- Lexicographic strict order on character lists (by code point). -/
def charListLt : List Char → List Char → Bool
  | [], [] => false
  | [], _ :: _ => true
  | _ :: _, [] => false
  | x :: xs, y :: ys =>
      if x.val < y.val then true
      else if y.val < x.val then false
      else charListLt xs ys

/-- Lexicographic `≤` on strings, the key order pandas uses when sorting
string group keys. -/
def strLeb (a b : String) : Bool := !charListLt b.data a.data

/-- Rounding of a rational to the nearest integer, ties to even — the
rounding mode of numpy/pandas `round`. -/
def roundHalfEven (q : ℚ) : ℤ :=
  if q - ⌊q⌋ < 1/2 then ⌊q⌋
  else if q - ⌊q⌋ > 1/2 then ⌊q⌋ + 1
  else if ⌊q⌋ % 2 = 0 then ⌊q⌋ else ⌊q⌋ + 1

/-- Pandas `.round(2)`: round to two decimal places, ties to even. -/
def round2 (q : ℚ) : ℚ := (roundHalfEven (q * 100) : ℚ) / 100

/-- One row of the prepared sales table (`SalesFact`): the columns of the
order_items/orders join that the metrics calculators read. -/
structure SalesRow where
  order_id : Nat
  product_id : Nat
  price : ℚ
  year : Nat
  month : Nat
deriving DecidableEq, Repr

/-- Sum of the `price` column (`data['price'].sum()`). -/
def totalPrice (t : List SalesRow) : ℚ := (t.map (·.price)).sum

/-- Distinct `order_id` values in first-occurrence order; its length is
`data['order_id'].nunique()`. -/
def distinctOrders (t : List SalesRow) : List Nat := (t.map (·.order_id)).dedup

/-- Per-order price sum: one entry of `data.groupby('order_id')['price'].sum()`. -/
def orderPriceSum (t : List SalesRow) (oid : Nat) : ℚ :=
  totalPrice (t.filter (fun r => r.order_id = oid))

/-- Mean of the per-order price sums
(`data.groupby('order_id')['price'].sum().mean()`): NaN on an empty
table (pandas mean of an empty series), otherwise the exact mean. -/
def aovNp (t : List SalesRow) : NpFloat :=
  if distinctOrders t = [] then .nan
  else .num (((distinctOrders t).map (orderPriceSum t)).sum / (distinctOrders t).length)

/-- Metrics computed for one period by `calculate_revenue_metrics`. -/
structure RevenueMetrics where
  total_revenue : ℚ
  avg_order_value : NpFloat
  total_orders : Nat
  total_items : Nat
deriving DecidableEq, Repr

/-- Per-period block of `calculate_revenue_metrics`. -/
def revenueMetricsOf (t : List SalesRow) : RevenueMetrics :=
  { total_revenue := totalPrice t
    avg_order_value := aovNp t
    total_orders := (distinctOrders t).length
    total_items := t.length }

/-- Growth-rate entries added when a comparison table is supplied.
`order_growth_rate` is a plain rational because the Python expression
divides two `int`s, which raises on a zero denominator instead of
producing a float infinity. -/
structure GrowthRates where
  revenue_growth_rate : NpFloat
  aov_growth_rate : NpFloat
  order_growth_rate : ℚ
deriving DecidableEq, Repr

/-- Python exceptions that the embedded metrics code can raise. -/
inductive PyError where
  | zeroDivisionError
deriving DecidableEq, Repr

/-- Result of `calculate_revenue_metrics`: the current-period block and,
when a comparison table was supplied, the comparison block plus growth
rates. -/
structure RevenueReport where
  current : RevenueMetrics
  comparison : Option (RevenueMetrics × GrowthRates)
deriving DecidableEq, Repr

/-- Embedding of `EcommerceMetrics.calculate_revenue_metrics`
(src/business_metrics.py lines 23-62).  The revenue and AOV growth rates
are numpy float divisions (silent `inf`/`nan` on a zero denominator,
captured by `growthRate`/`growthRateNp`), while the order growth rate
divides two Python ints and raises `ZeroDivisionError` when the
comparison table has no orders; in that case no metrics dictionary is
returned at all. -/
def calculate_revenue_metrics (current : List SalesRow)
    (comparison : Option (List SalesRow)) : Except PyError RevenueReport :=
  let m := revenueMetricsOf current
  match comparison with
  | none => .ok { current := m, comparison := none }
  | some c =>
      let mc := revenueMetricsOf c
      let revGrowth := growthRate m.total_revenue mc.total_revenue
      let aovGrowth := growthRateNp m.avg_order_value mc.avg_order_value
      if mc.total_orders = 0 then
        .error .zeroDivisionError
      else
        .ok { current := m
              comparison := some (mc,
                { revenue_growth_rate := revGrowth
                  aov_growth_rate := aovGrowth
                  order_growth_rate :=
                    ((m.total_orders : ℚ) - (mc.total_orders : ℚ)) / (mc.total_orders : ℚ) * 100 }) }

/-- Year filter at the top of `calculate_monthly_trends`
(`if year: data = data[data['order_purchase_timestamp_year'] == year]`).
The guard is Python truthiness, so `year = 0` skips the filter. -/
def yearFiltered (data : List SalesRow) (year : Option Nat) : List SalesRow :=
  match year with
  | none => data
  | some y => if y = 0 then data else data.filter (fun r => r.year = y)

/-- Rows of the table that fall in month `m`. -/
def monthRows (d : List SalesRow) (m : Nat) : List SalesRow :=
  d.filter (fun r => r.month = m)

/-- Distinct months present in the table, in the ascending order pandas
`groupby` uses for its keys. -/
def sortedMonths (d : List SalesRow) : List Nat :=
  sortBy (fun a b => decide (a ≤ b)) ((d.map (·.month)).dedup)

/-- Mean of per-order price sums as an exact rational; only used on
non-empty groups, where the pandas mean is an ordinary number. -/
def aovQ (t : List SalesRow) : ℚ :=
  ((distinctOrders t).map (orderPriceSum t)).sum / (distinctOrders t).length

/-- Per-month aggregates of `calculate_monthly_trends` before the growth
columns are appended. -/
structure TrendBase where
  month : Nat
  revenue : ℚ
  orders : Nat
  avg_order_value : ℚ
deriving DecidableEq, Repr

/-- Month `m`'s row of aggregates: revenue sum, distinct order count, and
two-step AOV, exactly the three groupbys of the source. -/
def trendBaseOf (d : List SalesRow) (m : Nat) : TrendBase :=
  { month := m
    revenue := totalPrice (monthRows d m)
    orders := (distinctOrders (monthRows d m)).length
    avg_order_value := aovQ (monthRows d m) }

/-- One output row of `calculate_monthly_trends`, growth columns included. -/
structure TrendRow where
  month : Nat
  revenue : ℚ
  orders : Nat
  avg_order_value : ℚ
  revenue_growth : NpFloat
  order_growth : NpFloat
  aov_growth : NpFloat
deriving DecidableEq, Repr

/-- Appending of the three `pct_change() * 100` columns, walking the rows
in order with the previous row's values at hand: the first row has no
predecessor so all its growth cells are NaN (pandas null); later rows get
`growthRate` of consecutive values, which is exactly
`(cur / prev - 1) * 100` for a non-zero previous value and numpy's silent
`inf`/`nan` otherwise. -/
def addGrowth (prev : Option TrendBase) : List TrendBase → List TrendRow
  | [] => []
  | b :: rest =>
      { month := b.month
        revenue := b.revenue
        orders := b.orders
        avg_order_value := b.avg_order_value
        revenue_growth :=
          match prev with
          | none => NpFloat.nan
          | some p => growthRate b.revenue p.revenue
        order_growth :=
          match prev with
          | none => NpFloat.nan
          | some p => growthRate (b.orders : ℚ) (p.orders : ℚ)
        aov_growth :=
          match prev with
          | none => NpFloat.nan
          | some p => growthRate b.avg_order_value p.avg_order_value } ::
        addGrowth (some b) rest

/-- Embedding of `EcommerceMetrics.calculate_monthly_trends`
(src/business_metrics.py lines 64-95): optional year filter, one row per
distinct month present (in pandas ascending key order), per-month
aggregates, then the percentage-change columns. -/
def calculate_monthly_trends (data : List SalesRow) (year : Option Nat) : List TrendRow :=
  let d := yearFiltered data year
  addGrowth none ((sortedMonths d).map (trendBaseOf d))

/-- Input row of `add_delivery_metrics`: the purchase timestamp (epoch
seconds) and the nullable delivered-to-customer timestamp. -/
structure DeliverySrcRow where
  order_purchase_timestamp : Int
  order_delivered_customer_date : Option Int
deriving DecidableEq, Repr

/-- Embedding of `EcommerceDataLoader._categorize_delivery_speed`
(src/data_loader.py lines 159-177): NaN (here `none`) gives "Unknown",
then the `days <= 3` / `days <= 7` / else chain. -/
def categorize_delivery_speed : Option Int → String
  | none => "Unknown"
  | some days =>
      if days ≤ 3 then "1-3 days"
      else if days ≤ 7 then "4-7 days"
      else "8+ days"

/-- Whole-day difference `(delivered - purchased).dt.days`: pandas
`Timedelta.days` is the floor of the duration in days, hence `Int.fdiv`
by 86400 seconds. `none` (no delivered date) propagates. -/
def deliveryDays (r : DeliverySrcRow) : Option Int :=
  r.order_delivered_customer_date.map
    (fun d => (d - r.order_purchase_timestamp).fdiv 86400)

/-- Output row of `add_delivery_metrics`: the input row plus the two new
columns. -/
structure DeliveredRow where
  src : DeliverySrcRow
  delivery_speed_days : Option Int
  delivery_category : String
deriving DecidableEq, Repr

/-- Embedding of `EcommerceDataLoader.add_delivery_metrics`
(src/data_loader.py lines 136-157): row-wise day difference and category. -/
def add_delivery_metrics (t : List DeliverySrcRow) : List DeliveredRow :=
  t.map (fun r =>
    { src := r
      delivery_speed_days := deliveryDays r
      delivery_category := categorize_delivery_speed (deliveryDays r) })

/-- One row of the order_items table (the columns selected by
`create_sales_dataset`). -/
structure OrderItemRow where
  order_id : Nat
  order_item_id : Nat
  product_id : Nat
  price : ℚ
  freight_value : ℚ
deriving DecidableEq, Repr

/-- One row of the orders table (the columns selected by
`create_sales_dataset`). -/
structure OrderRow where
  order_id : Nat
  customer_id : Nat
  order_status : String
  order_purchase_timestamp : Int
  order_delivered_customer_date : Option Int
deriving DecidableEq, Repr

/-- One row of the joined sales dataset: an order_items row paired with
its matching orders row. -/
structure SalesJoinRow where
  item : OrderItemRow
  order : OrderRow
deriving DecidableEq, Repr

/-- Embedding of the `pd.merge(..., on='order_id', how='inner')` in
`EcommerceDataLoader.create_sales_dataset` (src/data_loader.py lines
96-122): each left (order_items) row is paired with every orders row
carrying the same order_id, preserving left order; rows without a match
on the other side produce nothing.  The subsequent date conversion and
calendar-field derivation are per-row column additions that no claim
about this function depends on, so the join is the modelled core. -/
def create_sales_dataset (order_items : List OrderItemRow) (orders : List OrderRow) :
    List SalesJoinRow :=
  order_items.flatMap (fun it =>
    (orders.filter (fun o => o.order_id = it.order_id)).map
      (fun o => { item := it, order := o }))

/-- Generic dataframe for `filter_by_date_range`: a column-name schema
and rows of (column, value) cells, integer-valued since only the derived
year/month columns are ever compared. -/
@[ext]
structure DataFrame where
  cols : List String
  rows : List (List (String × Int))
deriving DecidableEq, Repr

/-- Cell lookup in a row; `none` when the row has no such column. -/
def getCell (r : List (String × Int)) (c : String) : Option Int :=
  (r.find? (fun kv => kv.1 = c)).map (·.2)

/-- One conditional filter step of `filter_by_date_range`, e.g.
`if start_year and year_col in df.columns: df = df[df[year_col] >= start_year]`.
The Python guard is truthiness, so a `none` bound and a `0` bound both
skip the step; a missing column skips it as well; a missing cell compares
false and the row is dropped. -/
def boundFilter (df : DataFrame) (col : String) (bound : Option Int)
    (cmp : Int → Int → Bool) : DataFrame :=
  match bound with
  | none => df
  | some b =>
      if b = 0 then df
      else if col ∈ df.cols then
        { cols := df.cols
          rows := df.rows.filter (fun r =>
            match getCell r col with
            | some v => cmp v b
            | none => false) }
      else df

/-- Comparison used for `df[col] >= bound`. -/
def geInt (v b : Int) : Bool := decide (b ≤ v)

/-- Comparison used for `df[col] <= bound`. -/
def leInt (v b : Int) : Bool := decide (v ≤ b)

/-- Embedding of `EcommerceDataLoader.filter_by_date_range`
(src/data_loader.py lines 179-212): four independent optional inclusive
bounds applied in sequence on the derived year/month columns. -/
def filter_by_date_range (df : DataFrame) (date_column : String)
    (start_year end_year start_month end_month : Option Int) : DataFrame :=
  let year_col := date_column ++ "_year"
  let month_col := date_column ++ "_month"
  boundFilter
    (boundFilter
      (boundFilter
        (boundFilter df year_col start_year geInt)
        year_col end_year leInt)
      month_col start_month geInt)
    month_col end_month leInt

/-- Row predicate realized by one `boundFilter` step: the condition a row
must satisfy to survive that step, given the schema at that point.  A
`none` bound, a `0` bound, or an absent column imposes no constraint. -/
def boundPred (cols : List String) (col : String) (bound : Option Int)
    (cmp : Int → Int → Bool) (r : List (String × Int)) : Bool :=
  match bound with
  | none => true
  | some b =>
      if b = 0 then true
      else if col ∈ cols then
        (match getCell r col with
         | some v => cmp v b
         | none => false)
      else true

/-- One row of the products table (the columns selected by
`analyze_product_performance`); the category is nullable. -/
structure ProductRow where
  product_id : Nat
  product_category_name : Option String
deriving DecidableEq, Repr

/-- One row of the sales-products left join inside
`analyze_product_performance`. -/
structure SPRow where
  product_id : Nat
  price : ℚ
  order_id : Nat
  product_category_name : Option String
deriving DecidableEq, Repr

/-- Joined row built from a sales row and a (possibly null) category. -/
def spRowOf (s : SalesRow) (cat : Option String) : SPRow :=
  { product_id := s.product_id, price := s.price, order_id := s.order_id,
    product_category_name := cat }

/-- Embedding of the `pd.merge(..., on='product_id', how='left')` in
`analyze_product_performance` (src/business_metrics.py lines 112-118):
every sales row is kept; a row with no matching product keeps a null
category, a row with matches is paired with each matching product. -/
def merge_sales_products (sales : List SalesRow) (products : List ProductRow) :
    List SPRow :=
  sales.flatMap (fun s =>
    match products.filter (fun p => p.product_id = s.product_id) with
    | [] => [spRowOf s none]
    | ps => ps.map (fun p => spRowOf s p.product_category_name))

/-- Sum of the price column of a join-row group. -/
def spPriceSum (g : List SPRow) : ℚ := (g.map (·.price)).sum

/-- Distinct order ids of a join-row group (first-occurrence order). -/
def spDistinctOrders (g : List SPRow) : List Nat := (g.map (·.order_id)).dedup

/-- Distinct non-null category names in pandas groupby key order
(ascending; rows with a null category are dropped by groupby). -/
def categoriesOf (rows : List SPRow) : List String :=
  sortBy strLeb ((rows.filterMap (·.product_category_name)).dedup)

/-- One row of the `category_performance` result table. -/
structure CategoryPerf where
  product_category_name : String
  total_revenue : ℚ
  avg_price : ℚ
  items_sold : Nat
  unique_orders : Nat
deriving DecidableEq, Repr

/-- Aggregates of one category group: price sum, price mean, row count,
distinct order count, each rounded to two decimals as in the source's
`.round(2)` (a no-op on the integer counts). -/
def categoryPerfOf (rows : List SPRow) (c : String) : CategoryPerf :=
  let g := rows.filter (fun r => r.product_category_name = some c)
  { product_category_name := c
    total_revenue := round2 (spPriceSum g)
    avg_price := round2 (spPriceSum g / g.length)
    items_sold := g.length
    unique_orders := (spDistinctOrders g).length }

/-- Ascending revenue comparison, the key of the ascending argsort that
pandas reverses to realize `sort_values('total_revenue', ascending=False)`
on the category table. -/
def catRevAsc (a b : CategoryPerf) : Bool := decide (a.total_revenue ≤ b.total_revenue)

/-- Category half of `analyze_product_performance`: group, aggregate,
sort descending by revenue (reversed ascending argsort, see
`sortValuesDesc`), truncate to `top_n` (`.head(top_n)`). -/
def categoryTable (rows : List SPRow) (top_n : Nat) : List CategoryPerf :=
  (sortValuesDesc catRevAsc ((categoriesOf rows).map (categoryPerfOf rows))).take top_n

/-- One row of the `product_performance` result table. -/
structure ProductPerf where
  product_id : Nat
  total_revenue : ℚ
  items_sold : Nat
  unique_orders : Nat
deriving DecidableEq, Repr

/-- Distinct product ids in pandas groupby key order (ascending). -/
def productIdsOf (rows : List SPRow) : List Nat :=
  sortBy (fun a b => decide (a ≤ b)) ((rows.map (·.product_id)).dedup)

/-- Aggregates of one product group. -/
def productPerfOf (rows : List SPRow) (pid : Nat) : ProductPerf :=
  let g := rows.filter (fun r => r.product_id = pid)
  { product_id := pid
    total_revenue := round2 (spPriceSum g)
    items_sold := g.length
    unique_orders := (spDistinctOrders g).length }

/-- Ascending revenue comparison for the product table's descending sort
(reversed ascending argsort, see `sortValuesDesc`). -/
def prodRevAsc (a b : ProductPerf) : Bool := decide (a.total_revenue ≤ b.total_revenue)

/-- Product half of `analyze_product_performance`. -/
def productTable (rows : List SPRow) (top_n : Nat) : List ProductPerf :=
  (sortValuesDesc prodRevAsc ((productIdsOf rows).map (productPerfOf rows))).take top_n

/-- Embedding of `EcommerceMetrics.analyze_product_performance`
(src/business_metrics.py lines 97-141): left join, then the category and
product aggregation tables. -/
def analyze_product_performance (sales : List SalesRow) (products : List ProductRow)
    (top_n : Nat) : List CategoryPerf × List ProductPerf :=
  let sp := merge_sales_products sales products
  (categoryTable sp top_n, productTable sp top_n)

/-- Concrete one-row current-period table used by witnesses. -/
def curTable : List SalesRow :=
  [{ order_id := 1, product_id := 1, price := 100, year := 2023, month := 1 }]

/-- Concrete comparison table whose total revenue is zero while it still
contains one order; the revenue-growth denominator is therefore zero. -/
def zeroRevTable : List SalesRow :=
  [{ order_id := 2, product_id := 1, price := 0, year := 2022, month := 1 }]

/-- Concrete comparison table with non-zero revenue. -/
def prevTable : List SalesRow :=
  [{ order_id := 2, product_id := 1, price := 50, year := 2022, month := 1 }]

/-- Epoch seconds of 2024-01-01T00:00:00Z. -/
def tsJan01 : Int := 1704067200

/-- Epoch seconds of 2024-01-03T00:00:00Z. -/
def tsJan03 : Int := 1704240000

/-- Epoch seconds of 2024-01-08T00:00:00Z. -/
def tsJan08 : Int := 1704672000

/-- Epoch seconds of 2024-01-09T00:00:00Z. -/
def tsJan09 : Int := 1704758400

/-- Delivery rows of the spec's worked example: purchase 2024-01-01 with
deliveries on 2024-01-03, 2024-01-08, 2024-01-09 and one undelivered. -/
def deliveryExample : List DeliverySrcRow :=
  [{ order_purchase_timestamp := tsJan01, order_delivered_customer_date := some tsJan03 },
   { order_purchase_timestamp := tsJan01, order_delivered_customer_date := some tsJan08 },
   { order_purchase_timestamp := tsJan01, order_delivered_customer_date := some tsJan09 },
   { order_purchase_timestamp := tsJan01, order_delivered_customer_date := none }]

/-- Two order items of the same order: the inner join then has more rows
than the orders table. -/
def twoItemsOneOrder : List OrderItemRow :=
  [{ order_id := 1, order_item_id := 1, product_id := 10, price := 10, freight_value := 0 },
   { order_id := 1, order_item_id := 2, product_id := 11, price := 20, freight_value := 0 }]

/-- A single order matching both items above. -/
def oneOrder : List OrderRow :=
  [{ order_id := 1, customer_id := 7, order_status := "delivered",
     order_purchase_timestamp := 0, order_delivered_customer_date := none }]

/-- Two-month sales table used by the monthly-trends witness. -/
def twoMonthSales : List SalesRow :=
  [{ order_id := 1, product_id := 1, price := 100, year := 2023, month := 1 },
   { order_id := 2, product_id := 1, price := 50, year := 2023, month := 2 }]

/-- Five sales rows over five distinct product categories. -/
def fiveCatSales : List SalesRow :=
  [{ order_id := 1, product_id := 1, price := 10, year := 2023, month := 1 },
   { order_id := 2, product_id := 2, price := 20, year := 2023, month := 1 },
   { order_id := 3, product_id := 3, price := 30, year := 2023, month := 1 },
   { order_id := 4, product_id := 4, price := 40, year := 2023, month := 1 },
   { order_id := 5, product_id := 5, price := 50, year := 2023, month := 1 }]

/-- Product master rows with five distinct categories. -/
def fiveCatProducts : List ProductRow :=
  [{ product_id := 1, product_category_name := some "beleza" },
   { product_id := 2, product_category_name := some "esporte" },
   { product_id := 3, product_category_name := some "moveis" },
   { product_id := 4, product_category_name := some "informatica" },
   { product_id := 5, product_category_name := some "brinquedos" }]

/-- Two sales rows over two categories with equal revenue: a revenue tie
between categories "alpha" and "beta". -/
def tieSales : List SalesRow :=
  [{ order_id := 1, product_id := 1, price := 10, year := 2023, month := 1 },
   { order_id := 2, product_id := 2, price := 10, year := 2023, month := 1 }]

/-- Products for the tie example: category "alpha" precedes "beta" in the
groupby (pre-sort) key order. -/
def tieProducts : List ProductRow :=
  [{ product_id := 1, product_category_name := some "alpha" },
   { product_id := 2, product_category_name := some "beta" }]

/-- Membership in an insertion step. -/
theorem mem_insertSorted {le : α → α → Bool} {x a : α} :
    ∀ {l : List α}, a ∈ insertSorted le x l ↔ a = x ∨ a ∈ l := by
  intro l
  induction l with
  | nil => simp [insertSorted]
  | cons y ys ih =>
      simp only [insertSorted]
      split
      · simp [List.mem_cons]
      · simp only [List.mem_cons, ih]
        tauto

/-- An insertion step is a permutation of consing. -/
theorem insertSorted_perm (le : α → α → Bool) (x : α) :
    ∀ (l : List α), (insertSorted le x l).Perm (x :: l) := by
  intro l
  induction l with
  | nil => exact List.Perm.refl _
  | cons y ys ih =>
      simp only [insertSorted]
      split
      · exact List.Perm.refl _
      · exact List.Perm.trans (List.Perm.cons y ih) (List.Perm.swap x y ys)

/-- The insertion sort permutes its input. -/
theorem sortBy_perm (le : α → α → Bool) : ∀ (l : List α), (sortBy le l).Perm l := by
  intro l
  induction l with
  | nil => exact List.Perm.refl _
  | cons x xs ih =>
      have h : sortBy le (x :: xs) = insertSorted le x (sortBy le xs) := rfl
      rw [h]
      exact List.Perm.trans (insertSorted_perm le x (sortBy le xs)) (List.Perm.cons x ih)

/-- Sorting preserves length. -/
theorem sortBy_length (le : α → α → Bool) (l : List α) :
    (sortBy le l).length = l.length :=
  (sortBy_perm le l).length_eq

/-- Sorting preserves membership. -/
theorem sortBy_mem {le : α → α → Bool} {a : α} {l : List α} :
    a ∈ sortBy le l ↔ a ∈ l :=
  (sortBy_perm le l).mem_iff

/-- Sorting preserves freedom from duplicates. -/
theorem sortBy_nodup {le : α → α → Bool} {l : List α} (h : l.Nodup) :
    (sortBy le l).Nodup :=
  ((sortBy_perm le l).nodup_iff).mpr h

/-- Inserting into a `P`-pairwise list keeps it pairwise, provided the
comparison is sound for `P` in both directions and `P` is transitive. -/
theorem pairwise_insertSorted {le : α → α → Bool} {P : α → α → Prop}
    (h1 : ∀ a b, le a b = true → P a b) (h2 : ∀ a b, le a b = false → P b a)
    (ht : ∀ a b c, P a b → P b c → P a c) (x : α) :
    ∀ {l : List α}, l.Pairwise P → (insertSorted le x l).Pairwise P := by
  intro l
  induction l with
  | nil => intro _; simp [insertSorted]
  | cons y ys ih =>
      intro hp
      rw [List.pairwise_cons] at hp
      simp only [insertSorted]
      split
      · rename_i hle
        rw [List.pairwise_cons]
        refine ⟨?_, List.pairwise_cons.mpr hp⟩
        intro z hz
        rcases List.mem_cons.mp hz with hz | hz
        · exact hz ▸ h1 x y hle
        · exact ht x y z (h1 x y hle) (hp.1 z hz)
      · rename_i hle
        have hyx : P y x := h2 x y (Bool.eq_false_iff.mpr hle)
        rw [List.pairwise_cons]
        refine ⟨?_, ih hp.2⟩
        intro z hz
        rcases mem_insertSorted.mp hz with hz | hz
        · exact hz ▸ hyx
        · exact hp.1 z hz

/-- The insertion sort produces a `P`-pairwise list. -/
theorem sortBy_pairwise {le : α → α → Bool} {P : α → α → Prop}
    (h1 : ∀ a b, le a b = true → P a b) (h2 : ∀ a b, le a b = false → P b a)
    (ht : ∀ a b c, P a b → P b c → P a c) :
    ∀ (l : List α), (sortBy le l).Pairwise P := by
  intro l
  induction l with
  | nil => exact List.Pairwise.nil
  | cons x xs ih => exact pairwise_insertSorted h1 h2 ht x ih

/-- Deduplication does not change the induced finite set. -/
theorem dedup_toFinset {α} [DecidableEq α] (l : List α) :
    l.dedup.toFinset = l.toFinset := by
  ext a
  simp [List.mem_toFinset, List.mem_dedup]

/-- A fold over the deduplicated list is the sum over the corresponding
finite set; bridges pandas groupby aggregation and `Finset.sum`. -/
theorem sum_map_dedup_eq_sum_toFinset {α} [DecidableEq α] (l : List α) (f : α → ℚ) :
    ((l.dedup).map f).sum = ∑ x ∈ l.toFinset, f x := by
  rw [← dedup_toFinset l, List.sum_toFinset f (List.nodup_dedup l)]

/-- With pairwise-distinct keys, filtering a list on one key value yields
at most the single row found by `find?`. -/
theorem filter_key_eq_find_of_nodup {α κ : Type} [DecidableEq κ] (f : α → κ) :
    ∀ (l : List α), (l.map f).Nodup → ∀ k,
      l.filter (fun a => f a = k) = (l.find? (fun a => f a = k)).toList := by
  intro l
  induction l with
  | nil => intro _ k; rfl
  | cons a as ih =>
      intro h k
      rw [List.map_cons, List.nodup_cons] at h
      by_cases hk : f a = k
      · have hnone : as.filter (fun x => f x = k) = [] := by
          rw [List.filter_eq_nil_iff]
          intro x hx
          simp only [decide_eq_true_eq]
          intro hfx
          exact h.1 (hk ▸ hfx ▸ List.mem_map_of_mem f hx)
        simp [List.filter_cons, List.find?_cons, hk, hnone]
      · rw [List.filter_cons, if_neg (by simp [hk]), List.find?_cons]
        have hd : (decide (f a = k)) = false := by simp [hk]
        rw [hd]
        exact ih h.2 k

/-- Length form of `filter_key_eq_find_of_nodup`: with distinct keys the
number of rows matching key `k` is 1 or 0 according to membership. -/
theorem length_filter_key_of_nodup {α κ : Type} [DecidableEq κ] (f : α → κ)
    (l : List α) (h : (l.map f).Nodup) (k : κ) :
    (l.filter (fun a => f a = k)).length = if k ∈ l.map f then 1 else 0 := by
  rw [filter_key_eq_find_of_nodup f l h k]
  cases hf : l.find? (fun a => f a = k) with
  | none =>
      rw [List.find?_eq_none] at hf
      rw [if_neg]
      · rfl
      · intro hm
        rcases List.mem_map.mp hm with ⟨a, ha, hak⟩
        exact hf a ha (by simp [hak])
  | some a =>
      have hm : k ∈ l.map f := by
        have h1 := List.find?_some hf
        have h2 := List.mem_of_find?_eq_some hf
        simp only [decide_eq_true_eq] at h1
        exact h1 ▸ List.mem_map_of_mem f h2
      rw [if_pos hm]
      rfl

/-- A non-empty sales table has a non-empty list of distinct orders. -/
theorem distinctOrders_ne_nil {t : List SalesRow} (h : t ≠ []) :
    distinctOrders t ≠ [] := by
  rcases List.exists_mem_of_ne_nil t h with ⟨r, hr⟩
  exact List.ne_nil_of_mem (List.mem_dedup.mpr (List.mem_map_of_mem _ hr))

/-- On a non-empty table the AOV is an ordinary number, the exact mean of
the per-order sums. -/
theorem aovNp_of_ne_nil {t : List SalesRow} (h : t ≠ []) :
    aovNp t = NpFloat.num (aovQ t) := by
  unfold aovNp aovQ
  rw [if_neg (distinctOrders_ne_nil h)]

/-- Claim C10: for every defined negative day count (delivered before
purchased) the delivery categorization returns "1-3 days"; negative values
are neither rejected nor mapped to "Unknown". -/
theorem negative_days_bucket (d : Int) (h : d < 0) :
    categorize_delivery_speed (some d) = "1-3 days" := by
  show (if d ≤ 3 then "1-3 days" else if d ≤ 7 then "4-7 days" else "8+ days") = "1-3 days"
  rw [if_pos (by omega)]

/-- Witness for C10 at the concrete day count -1. -/
theorem negative_days_bucket_witness :
    categorize_delivery_speed (some (-1)) = "1-3 days" :=
  negative_days_bucket (-1) (by decide)

/-- Claim C3: `add_delivery_metrics` assigns each row the whole-day
difference delivered minus purchased as `delivery_speed_days` and buckets
it with inclusive upper bounds 3 and 7 ("Unknown" when undelivered); on
the spec's worked example (purchase 2024-01-01, deliveries 2024-01-03,
2024-01-08, 2024-01-09, and one undelivered) it yields day counts 2, 7, 8
and categories "1-3 days", "4-7 days", "8+ days", "Unknown". -/
theorem delivery_metrics_days_and_buckets :
    (∀ (t : List DeliverySrcRow) (out : DeliveredRow), out ∈ add_delivery_metrics t →
      out.delivery_speed_days =
        out.src.order_delivered_customer_date.map
          (fun dd => (dd - out.src.order_purchase_timestamp).fdiv 86400) ∧
      (∀ d, out.delivery_speed_days = some d →
        (d ≤ 3 → out.delivery_category = "1-3 days") ∧
        (3 < d → d ≤ 7 → out.delivery_category = "4-7 days") ∧
        (7 < d → out.delivery_category = "8+ days")) ∧
      (out.src.order_delivered_customer_date = none →
        out.delivery_category = "Unknown")) ∧
    add_delivery_metrics deliveryExample =
      [{ src := { order_purchase_timestamp := tsJan01,
                  order_delivered_customer_date := some tsJan03 },
         delivery_speed_days := some 2, delivery_category := "1-3 days" },
       { src := { order_purchase_timestamp := tsJan01,
                  order_delivered_customer_date := some tsJan08 },
         delivery_speed_days := some 7, delivery_category := "4-7 days" },
       { src := { order_purchase_timestamp := tsJan01,
                  order_delivered_customer_date := some tsJan09 },
         delivery_speed_days := some 8, delivery_category := "8+ days" },
       { src := { order_purchase_timestamp := tsJan01,
                  order_delivered_customer_date := none },
         delivery_speed_days := none, delivery_category := "Unknown" }] := by
  constructor
  · intro t out hout
    rcases List.mem_map.mp hout with ⟨r, hr, hout⟩
    subst hout
    refine ⟨rfl, ?_, ?_⟩
    · intro d hd
      have hd2 : deliveryDays r = some d := hd
      refine ⟨?_, ?_, ?_⟩
      · intro h3
        show categorize_delivery_speed (deliveryDays r) = "1-3 days"
        rw [hd2]
        show (if d ≤ 3 then "1-3 days" else if d ≤ 7 then "4-7 days" else "8+ days") = _
        rw [if_pos h3]
      · intro h3 h7
        show categorize_delivery_speed (deliveryDays r) = "4-7 days"
        rw [hd2]
        show (if d ≤ 3 then "1-3 days" else if d ≤ 7 then "4-7 days" else "8+ days") = _
        rw [if_neg (by omega), if_pos h7]
      · intro h7
        show categorize_delivery_speed (deliveryDays r) = "8+ days"
        rw [hd2]
        show (if d ≤ 3 then "1-3 days" else if d ≤ 7 then "4-7 days" else "8+ days") = _
        rw [if_neg (by omega), if_neg (by omega)]
    · intro hnone
      show categorize_delivery_speed (deliveryDays r) = "Unknown"
      have hnone2 : r.order_delivered_customer_date = none := hnone
      have hdn : deliveryDays r = none := by
        simp [deliveryDays, hnone2]
      rw [hdn]
      rfl
  · decide

/-- Witness for C3: the worked-example row delivered on 2024-01-03 is in
the output and is categorized "1-3 days" by the bucket rule. -/
theorem delivery_metrics_days_and_buckets_witness :
    ({ src := { order_purchase_timestamp := tsJan01,
                order_delivered_customer_date := some tsJan03 },
       delivery_speed_days := some 2,
       delivery_category := "1-3 days" } : DeliveredRow).delivery_category =
      "1-3 days" :=
  ((delivery_metrics_days_and_buckets.1 deliveryExample
      { src := { order_purchase_timestamp := tsJan01,
                 order_delivered_customer_date := some tsJan03 },
        delivery_speed_days := some 2,
        delivery_category := "1-3 days" }
      (by decide)).2.1 2 (by decide)).1 (by decide)

/-- Claim C1: on a non-empty sales table, `calculate_revenue_metrics`
returns the price-column sum as total revenue, the mean over distinct
orders of the per-order price sums as AOV (not the mean line price), the
distinct order count, and the row count. -/
theorem revenue_metrics_matches_spec (t : List SalesRow) (h : t ≠ []) :
    calculate_revenue_metrics t none = Except.ok
      { current :=
          { total_revenue := (t.map (·.price)).sum
            avg_order_value := NpFloat.num
              ((∑ o ∈ (t.map (·.order_id)).toFinset,
                  ((t.filter (fun r => r.order_id = o)).map (·.price)).sum) /
                ((t.map (·.order_id)).toFinset.card : ℚ))
            total_orders := (t.map (·.order_id)).toFinset.card
            total_items := t.length }
        comparison := none } := by
  have h2 : (distinctOrders t).length = (t.map (·.order_id)).toFinset.card :=
    (List.card_toFinset _).symm
  have h3 : ((distinctOrders t).map (orderPriceSum t)).sum =
      ∑ o ∈ (t.map (·.order_id)).toFinset,
        ((t.filter (fun r => r.order_id = o)).map (·.price)).sum := by
    unfold distinctOrders
    rw [sum_map_dedup_eq_sum_toFinset]
    exact Finset.sum_congr rfl (fun o _ => rfl)
  simp only [calculate_revenue_metrics, revenueMetricsOf]
  rw [aovNp_of_ne_nil h]
  unfold aovQ
  rw [h2, h3]
  rfl

/-- Witness for C1 at a concrete one-row table. -/
theorem revenue_metrics_matches_spec_witness :
    calculate_revenue_metrics curTable none = Except.ok
      { current :=
          { total_revenue := (curTable.map (·.price)).sum
            avg_order_value := NpFloat.num
              ((∑ o ∈ (curTable.map (·.order_id)).toFinset,
                  ((curTable.filter (fun r => r.order_id = o)).map (·.price)).sum) /
                ((curTable.map (·.order_id)).toFinset.card : ℚ))
            total_orders := (curTable.map (·.order_id)).toFinset.card
            total_items := curTable.length }
        comparison := none } :=
  revenue_metrics_matches_spec curTable (by decide)

/-- Amended C2: with a comparison table supplied, only the integer
order-count division surfaces a division-by-zero signal — the call raises
`ZeroDivisionError` exactly when the comparison table is empty.  When the
comparison is non-empty, a zero comparison revenue silently yields an
infinite or NaN revenue growth rate (no error, no sentinel), and every
growth rate with a non-zero denominator equals
(current − previous) / previous × 100 exactly. -/
theorem growth_rate_zero_denominator_behavior (cur comp : List SalesRow) :
    (comp = [] →
      calculate_revenue_metrics cur (some comp) =
        Except.error PyError.zeroDivisionError) ∧
    (comp ≠ [] →
      ∃ g : GrowthRates,
        calculate_revenue_metrics cur (some comp) =
          Except.ok { current := revenueMetricsOf cur
                      comparison := some (revenueMetricsOf comp, g) } ∧
        (totalPrice comp = 0 →
          g.revenue_growth_rate = NpFloat.inf ∨ g.revenue_growth_rate = NpFloat.ninf ∨
            g.revenue_growth_rate = NpFloat.nan) ∧
        (totalPrice comp ≠ 0 →
          g.revenue_growth_rate =
            NpFloat.num ((totalPrice cur - totalPrice comp) / totalPrice comp * 100)) ∧
        g.order_growth_rate =
          (((distinctOrders cur).length : ℚ) - ((distinctOrders comp).length : ℚ)) /
            ((distinctOrders comp).length : ℚ) * 100 ∧
        (cur ≠ [] → aovQ comp ≠ 0 →
          g.aov_growth_rate =
            NpFloat.num ((aovQ cur - aovQ comp) / aovQ comp * 100)) ∧
        (cur ≠ [] → aovQ comp = 0 → 0 < aovQ cur →
          g.aov_growth_rate = NpFloat.inf)) := by
  constructor
  · intro h
    subst h
    rfl
  · intro hne
    have hord : (distinctOrders comp).length ≠ 0 :=
      fun h0 => distinctOrders_ne_nil hne (List.length_eq_zero.mp h0)
    refine ⟨{ revenue_growth_rate := growthRate (totalPrice cur) (totalPrice comp)
              aov_growth_rate := growthRateNp (aovNp cur) (aovNp comp)
              order_growth_rate :=
                (((distinctOrders cur).length : ℚ) - ((distinctOrders comp).length : ℚ)) /
                  ((distinctOrders comp).length : ℚ) * 100 }, ?_, ?_, ?_, rfl, ?_, ?_⟩
    · show (if (revenueMetricsOf comp).total_orders = 0 then _ else _) = _
      rw [if_neg (show ¬(revenueMetricsOf comp).total_orders = 0 from hord)]
      rfl
    · intro h0
      unfold growthRate
      rw [if_pos h0]
      split_ifs <;> simp
    · intro h0
      unfold growthRate
      rw [if_neg h0]
    · intro hcur haov
      rw [aovNp_of_ne_nil hcur, aovNp_of_ne_nil hne]
      show growthRate (aovQ cur) (aovQ comp) = _
      unfold growthRate
      rw [if_neg haov]
    · intro hcur haov hpos
      rw [aovNp_of_ne_nil hcur, aovNp_of_ne_nil hne]
      show growthRate (aovQ cur) (aovQ comp) = _
      unfold growthRate
      rw [if_pos haov, if_pos (by rw [haov]; simpa using hpos)]

/-- Witness for the amended C2: on an empty comparison table the call
raises `ZeroDivisionError`. -/
theorem growth_rate_zero_denominator_witness :
    calculate_revenue_metrics curTable (some []) =
      Except.error PyError.zeroDivisionError :=
  (growth_rate_zero_denominator_behavior curTable []).1 rfl

/-- Counterexample to C2 as stated: with a non-empty comparison table of
total revenue 0, the call returns normally and the revenue and AOV growth
rates are silently infinity — no error is raised and no sentinel is
returned in place of the metrics. -/
theorem growth_rate_divzero_counterexample :
    calculate_revenue_metrics curTable (some zeroRevTable) =
      Except.ok
        { current := { total_revenue := 100, avg_order_value := NpFloat.num 100,
                       total_orders := 1, total_items := 1 }
          comparison := some
            ({ total_revenue := 0, avg_order_value := NpFloat.num 0,
               total_orders := 1, total_items := 1 },
             { revenue_growth_rate := NpFloat.inf
               aov_growth_rate := NpFloat.inf
               order_growth_rate := 0 }) } := by
  norm_num [calculate_revenue_metrics, revenueMetricsOf, totalPrice, distinctOrders,
    aovNp, orderPriceSum, growthRate, growthRateNp, curTable, zeroRevTable]

/-- Amended C4: with pairwise-distinct order ids in the orders table, the
inner join's row count equals the number of order_items rows whose
order_id occurs in orders, hence is at most the order_items row count
(it is NOT bounded by the orders row count, since several items can share
one order); every joined row pairs an item with its matching order, so
rows whose order_id appears in only one table are dropped. -/
theorem sales_join_row_count (items : List OrderItemRow) (orders : List OrderRow)
    (ho : (orders.map (·.order_id)).Nodup) :
    (create_sales_dataset items orders).length =
      (items.filter (fun it => it.order_id ∈ orders.map (·.order_id))).length ∧
    (create_sales_dataset items orders).length ≤ items.length ∧
    ∀ r ∈ create_sales_dataset items orders,
      r.item ∈ items ∧ r.order ∈ orders ∧ r.item.order_id = r.order.order_id := by
  have hmain : ∀ its : List OrderItemRow,
      (create_sales_dataset its orders).length =
        (its.filter (fun it => it.order_id ∈ orders.map (·.order_id))).length := by
    intro its
    induction its with
    | nil => rfl
    | cons it rest ih =>
        show ((orders.filter (fun o => o.order_id = it.order_id)).map
            (fun o => ({ item := it, order := o } : SalesJoinRow)) ++
            create_sales_dataset rest orders).length = _
        rw [List.length_append, List.length_map, ih, List.filter_cons]
        have hlen := length_filter_key_of_nodup (fun o : OrderRow => o.order_id)
          orders ho it.order_id
        by_cases hm : it.order_id ∈ orders.map (·.order_id)
        · rw [if_pos (by simpa using hm), List.length_cons]
          rw [show (orders.filter (fun o => o.order_id = it.order_id)).length = 1 by
            rw [hlen, if_pos hm]]
          omega
        · rw [if_neg (by simpa using hm)]
          rw [show (orders.filter (fun o => o.order_id = it.order_id)).length = 0 by
            rw [hlen, if_neg hm]]
          omega
  refine ⟨hmain items, ?_, ?_⟩
  · rw [hmain items]
    exact List.length_filter_le _ _
  · intro r hr
    unfold create_sales_dataset at hr
    rcases List.mem_flatMap.mp hr with ⟨it, hit, hr2⟩
    rcases List.mem_map.mp hr2 with ⟨o, ho2, hre⟩
    have hof := List.mem_filter.mp ho2
    subst hre
    have heq : o.order_id = it.order_id := by simpa using hof.2
    exact ⟨hit, hof.1, heq.symm⟩

/-- Witness for the amended C4 on the two-items-one-order tables. -/
theorem sales_join_row_count_witness :
    (create_sales_dataset twoItemsOneOrder oneOrder).length =
      (twoItemsOneOrder.filter
        (fun it => it.order_id ∈ oneOrder.map (·.order_id))).length :=
  (sales_join_row_count twoItemsOneOrder oneOrder (by decide)).1

/-- Counterexample to C4 as stated: two order items of the same order
joined with the single matching order give 2 rows, exceeding
min(len(order_items), len(orders)) = 1. -/
theorem sales_join_min_bound_counterexample :
    ¬ (create_sales_dataset twoItemsOneOrder oneOrder).length ≤
        min twoItemsOneOrder.length oneOrder.length := by decide

/-- A bound-filter step never changes the schema. -/
theorem boundFilter_cols (df : DataFrame) (col : String) (b : Option Int)
    (cmp : Int → Int → Bool) : (boundFilter df col b cmp).cols = df.cols := by
  cases b with
  | none => rfl
  | some v =>
      simp only [boundFilter]
      split_ifs <;> rfl

/-- The rows surviving a bound-filter step are exactly the input rows
satisfying `boundPred`. -/
theorem boundFilter_rows (df : DataFrame) (col : String) (b : Option Int)
    (cmp : Int → Int → Bool) :
    (boundFilter df col b cmp).rows = df.rows.filter (boundPred df.cols col b cmp) := by
  cases b with
  | none => exact (List.filter_eq_self.mpr (fun a _ => rfl)).symm
  | some v =>
      by_cases h0 : v = 0
      · subst h0
        exact (List.filter_eq_self.mpr (fun a _ => rfl)).symm
      · by_cases hc : col ∈ df.cols
        · simp only [boundFilter]
          rw [if_neg h0, if_pos hc]
          refine List.filter_congr ?_
          intro x _
          show _ = boundPred df.cols col (some v) cmp x
          simp only [boundPred]
          rw [if_neg h0, if_pos hc]
        · simp only [boundFilter]
          rw [if_neg h0, if_neg hc]
          refine (List.filter_eq_self.mpr ?_).symm
          intro a _
          show boundPred df.cols col (some v) cmp a = true
          simp only [boundPred]
          rw [if_neg h0, if_neg hc]

/-- A bound-filter step whose predicate already holds on every row is the
identity. -/
theorem boundFilter_eq_self (df : DataFrame) (col : String) (b : Option Int)
    (cmp : Int → Int → Bool)
    (h : ∀ r ∈ df.rows, boundPred df.cols col b cmp r = true) :
    boundFilter df col b cmp = df := by
  ext1
  · rw [boundFilter_cols]
  · rw [boundFilter_rows, List.filter_eq_self.mpr h]

/-- A row surviving a bound-filter step came from the input and satisfies
the step's predicate. -/
theorem mem_boundFilter_rows {df : DataFrame} {col : String} {b : Option Int}
    {cmp : Int → Int → Bool} {r : List (String × Int)}
    (h : r ∈ (boundFilter df col b cmp).rows) :
    r ∈ df.rows ∧ boundPred df.cols col b cmp r = true := by
  rw [boundFilter_rows] at h
  exact ⟨(List.mem_filter.mp h).1, (List.mem_filter.mp h).2⟩

/-- Date-range filtering never changes the schema. -/
theorem fbdr_cols (df : DataFrame) (c : String) (sy ey sm em : Option Int) :
    (filter_by_date_range df c sy ey sm em).cols = df.cols := by
  show (boundFilter (boundFilter (boundFilter (boundFilter df (c ++ "_year") sy geInt)
      (c ++ "_year") ey leInt) (c ++ "_month") sm geInt) (c ++ "_month") em leInt).cols = df.cols
  rw [boundFilter_cols, boundFilter_cols, boundFilter_cols, boundFilter_cols]

/-- A row surviving the date-range filter came from the input and
satisfies all four bound predicates (stated over the input schema). -/
theorem fbdr_rows_mem (df : DataFrame) (c : String) (sy ey sm em : Option Int)
    (r : List (String × Int))
    (h : r ∈ (filter_by_date_range df c sy ey sm em).rows) :
    r ∈ df.rows ∧
    boundPred df.cols (c ++ "_year") sy geInt r = true ∧
    boundPred df.cols (c ++ "_year") ey leInt r = true ∧
    boundPred df.cols (c ++ "_month") sm geInt r = true ∧
    boundPred df.cols (c ++ "_month") em leInt r = true := by
  have hc1 : (boundFilter df (c ++ "_year") sy geInt).cols = df.cols :=
    boundFilter_cols df (c ++ "_year") sy geInt
  have hc2 : (boundFilter (boundFilter df (c ++ "_year") sy geInt)
      (c ++ "_year") ey leInt).cols = df.cols := by
    rw [boundFilter_cols, hc1]
  have hc3 : (boundFilter (boundFilter (boundFilter df (c ++ "_year") sy geInt)
      (c ++ "_year") ey leInt) (c ++ "_month") sm geInt).cols = df.cols := by
    rw [boundFilter_cols, hc2]
  obtain ⟨h3, p4⟩ := mem_boundFilter_rows
    (h : r ∈ (boundFilter (boundFilter (boundFilter (boundFilter df (c ++ "_year") sy geInt)
      (c ++ "_year") ey leInt) (c ++ "_month") sm geInt) (c ++ "_month") em leInt).rows)
  obtain ⟨h2, p3⟩ := mem_boundFilter_rows h3
  obtain ⟨h1, p2⟩ := mem_boundFilter_rows h2
  obtain ⟨h0, p1⟩ := mem_boundFilter_rows h1
  rw [hc3] at p4
  rw [hc2] at p3
  rw [hc1] at p2
  exact ⟨h0, p1, p2, p3, p4⟩

/-- Claim C7: `filter_by_date_range` is idempotent — re-filtering an
already-filtered table with the same column and bounds returns the same
table. -/
theorem filter_by_date_range_idempotent (df : DataFrame) (c : String)
    (sy ey sm em : Option Int) :
    filter_by_date_range (filter_by_date_range df c sy ey sm em) c sy ey sm em =
      filter_by_date_range df c sy ey sm em := by
  have hcols := fbdr_cols df c sy ey sm em
  have h1 : boundFilter (filter_by_date_range df c sy ey sm em)
      (c ++ "_year") sy geInt = filter_by_date_range df c sy ey sm em := by
    apply boundFilter_eq_self
    intro r hr
    rw [hcols]
    exact (fbdr_rows_mem df c sy ey sm em r hr).2.1
  have h2 : boundFilter (filter_by_date_range df c sy ey sm em)
      (c ++ "_year") ey leInt = filter_by_date_range df c sy ey sm em := by
    apply boundFilter_eq_self
    intro r hr
    rw [hcols]
    exact (fbdr_rows_mem df c sy ey sm em r hr).2.2.1
  have h3 : boundFilter (filter_by_date_range df c sy ey sm em)
      (c ++ "_month") sm geInt = filter_by_date_range df c sy ey sm em := by
    apply boundFilter_eq_self
    intro r hr
    rw [hcols]
    exact (fbdr_rows_mem df c sy ey sm em r hr).2.2.2.1
  have h4 : boundFilter (filter_by_date_range df c sy ey sm em)
      (c ++ "_month") em leInt = filter_by_date_range df c sy ey sm em := by
    apply boundFilter_eq_self
    intro r hr
    rw [hcols]
    exact (fbdr_rows_mem df c sy ey sm em r hr).2.2.2.2
  show boundFilter (boundFilter (boundFilter (boundFilter
      (filter_by_date_range df c sy ey sm em) (c ++ "_year") sy geInt)
      (c ++ "_year") ey leInt) (c ++ "_month") sm geInt) (c ++ "_month") em leInt =
    filter_by_date_range df c sy ey sm em
  rw [h1, h2, h3, h4]

/-- The rows of a bound-filter step form a sublist of the input rows. -/
theorem boundFilter_rows_sublist (df : DataFrame) (col : String) (b : Option Int)
    (cmp : Int → Int → Bool) : (boundFilter df col b cmp).rows.Sublist df.rows := by
  rw [boundFilter_rows]
  exact List.filter_sublist _

/-- Claim C8: `filter_by_date_range` does not mutate its input (it is a
pure function of it — the Python code copies the frame and builds
boolean-mask selections) and returns a table whose schema equals the
input's and whose rows are a sublist (hence a subset, in order) of the
input's rows. -/
theorem filter_by_date_range_frame (df : DataFrame) (c : String)
    (sy ey sm em : Option Int) :
    (filter_by_date_range df c sy ey sm em).cols = df.cols ∧
    (filter_by_date_range df c sy ey sm em).rows.Sublist df.rows := by
  refine ⟨fbdr_cols df c sy ey sm em, ?_⟩
  show (boundFilter (boundFilter (boundFilter (boundFilter df (c ++ "_year") sy geInt)
      (c ++ "_year") ey leInt) (c ++ "_month") sm geInt) (c ++ "_month") em leInt).rows.Sublist
    df.rows
  exact ((boundFilter_rows_sublist _ _ _ _).trans
    ((boundFilter_rows_sublist _ _ _ _).trans
      ((boundFilter_rows_sublist _ _ _ _).trans
        (boundFilter_rows_sublist _ _ _ _))))

/-- Claim C9: a bound equal to 0 is treated exactly like an omitted bound
(Python truthiness), in each of the four bound positions. -/
theorem filter_by_date_range_zero_bound (df : DataFrame) (c : String)
    (sy ey sm em : Option Int) :
    filter_by_date_range df c (some 0) ey sm em =
      filter_by_date_range df c none ey sm em ∧
    filter_by_date_range df c sy (some 0) sm em =
      filter_by_date_range df c sy none sm em ∧
    filter_by_date_range df c sy ey (some 0) em =
      filter_by_date_range df c sy ey none em ∧
    filter_by_date_range df c sy ey sm (some 0) =
      filter_by_date_range df c sy ey sm none :=
  ⟨rfl, rfl, rfl, rfl⟩

/-- Appending growth columns does not change the month column. -/
theorem addGrowth_month_map :
    ∀ (p : Option TrendBase) (bs : List TrendBase),
      (addGrowth p bs).map (·.month) = bs.map (·.month) := by
  intro p bs
  induction bs generalizing p with
  | nil => rfl
  | cons b rest ih =>
      simp only [addGrowth, List.map_cons, ih]

/-- Every output row of `addGrowth` carries the aggregate fields of some
input row. -/
theorem mem_addGrowth :
    ∀ (p : Option TrendBase) (bs : List TrendBase) (r : TrendRow),
      r ∈ addGrowth p bs →
      ∃ b ∈ bs, r.month = b.month ∧ r.revenue = b.revenue ∧
        r.orders = b.orders ∧ r.avg_order_value = b.avg_order_value := by
  intro p bs
  induction bs generalizing p with
  | nil => intro r h; simp [addGrowth] at h
  | cons b rest ih =>
      intro r h
      rcases List.mem_cons.mp h with h | h
      · refine ⟨b, List.mem_cons_self b rest, ?_⟩
        subst h
        exact ⟨rfl, rfl, rfl, rfl⟩
      · rcases ih (some b) r h with ⟨b2, hb2, hf⟩
        exact ⟨b2, List.mem_cons_of_mem b hb2, hf⟩

/-- The two-step AOV of a group, rewritten over the order-id finite set. -/
theorem aovQ_spec (t : List SalesRow) :
    aovQ t =
      (∑ o ∈ (t.map (·.order_id)).toFinset,
        ((t.filter (fun s => s.order_id = o)).map (·.price)).sum) /
      ((t.map (·.order_id)).toFinset.card : ℚ) := by
  have hnum : ((distinctOrders t).map (orderPriceSum t)).sum =
      ∑ o ∈ (t.map (·.order_id)).toFinset,
        ((t.filter (fun s => s.order_id = o)).map (·.price)).sum := by
    unfold distinctOrders
    rw [sum_map_dedup_eq_sum_toFinset]
    exact Finset.sum_congr rfl (fun o _ => rfl)
  have hden : (distinctOrders t).length = (t.map (·.order_id)).toFinset.card :=
    (List.card_toFinset _).symm
  unfold aovQ
  rw [hnum, hden]

/-- Claim C5: `calculate_monthly_trends` (optionally year-filtered)
returns exactly one row per distinct month present in the filtered input
— no zero-filling of absent months — with that month's price sum as
revenue, its distinct order count, the two-step per-order-sum-then-mean
AOV, and growth columns whose first row is NaN (pandas null), not zero. -/
theorem monthly_trends_shape_and_stats (data : List SalesRow) (year : Option Nat) :
    ((calculate_monthly_trends data year).map (·.month)).Nodup ∧
    (∀ m : Nat, m ∈ (calculate_monthly_trends data year).map (·.month) ↔
      m ∈ (yearFiltered data year).map (·.month)) ∧
    (∀ r ∈ calculate_monthly_trends data year,
      r.revenue =
        (((yearFiltered data year).filter (fun x => x.month = r.month)).map (·.price)).sum ∧
      r.orders =
        (((yearFiltered data year).filter (fun x => x.month = r.month)).map
          (·.order_id)).toFinset.card ∧
      r.avg_order_value =
        (∑ o ∈ (((yearFiltered data year).filter (fun x => x.month = r.month)).map
            (·.order_id)).toFinset,
          ((((yearFiltered data year).filter (fun x => x.month = r.month)).filter
            (fun s => s.order_id = o)).map (·.price)).sum) /
        ((((yearFiltered data year).filter (fun x => x.month = r.month)).map
          (·.order_id)).toFinset.card : ℚ)) ∧
    (∀ r0, (calculate_monthly_trends data year).head? = some r0 →
      r0.revenue_growth = NpFloat.nan ∧ r0.order_growth = NpFloat.nan ∧
      r0.aov_growth = NpFloat.nan) := by
  have hres : calculate_monthly_trends data year =
      addGrowth none ((sortedMonths (yearFiltered data year)).map
        (trendBaseOf (yearFiltered data year))) := rfl
  have hmonths : (calculate_monthly_trends data year).map (·.month) =
      sortedMonths (yearFiltered data year) := by
    rw [hres, addGrowth_month_map, List.map_map]
    have : ((fun b : TrendBase => b.month) ∘ trendBaseOf (yearFiltered data year)) =
        fun m => m := rfl
    rw [this, List.map_id']
  refine ⟨?_, ?_, ?_, ?_⟩
  · rw [hmonths]
    exact sortBy_nodup (List.nodup_dedup _)
  · intro m
    rw [hmonths]
    unfold sortedMonths
    rw [sortBy_mem, List.mem_dedup]
  · intro r hr
    rw [hres] at hr
    rcases mem_addGrowth _ _ _ hr with ⟨b, hb, hmon, hrev, hord, haov⟩
    rcases List.mem_map.mp hb with ⟨m, _, hbm⟩
    subst hbm
    have hm : r.month = m := hmon
    rw [hm]
    refine ⟨?_, ?_, ?_⟩
    · rw [hrev]
      rfl
    · rw [hord]
      exact (List.card_toFinset _).symm
    · rw [haov]
      exact aovQ_spec (monthRows (yearFiltered data year) m)
  · intro r0 h0
    rw [hres] at h0
    cases hcase : (sortedMonths (yearFiltered data year)).map
        (trendBaseOf (yearFiltered data year)) with
    | nil =>
        rw [hcase] at h0
        simp [addGrowth] at h0
    | cons b rest =>
        rw [hcase] at h0
        have hr0 := Option.some.inj h0
        rw [← hr0]
        exact ⟨rfl, rfl, rfl⟩

/-- Witness for C5: month 1 occurs in the trends of the two-month table. -/
theorem monthly_trends_shape_and_stats_witness :
    1 ∈ (calculate_monthly_trends twoMonthSales none).map (·.month) :=
  ((monthly_trends_shape_and_stats twoMonthSales none).2.1 1).mpr (by decide)

/-- With pairwise-distinct product ids, one sales row joins to exactly
one output row, whose category is the `find?` lookup (null when there is
no match). -/
theorem merge_one (products : List ProductRow)
    (hp : (products.map (·.product_id)).Nodup) (s : SalesRow) :
    (match products.filter (fun p => p.product_id = s.product_id) with
     | [] => [spRowOf s none]
     | ps => ps.map (fun p => spRowOf s p.product_category_name)) =
    [spRowOf s ((products.find? (fun p => p.product_id = s.product_id)).bind
       (·.product_category_name))] := by
  rw [filter_key_eq_find_of_nodup (fun p : ProductRow => p.product_id) products hp
    s.product_id]
  cases hf : products.find? (fun p => p.product_id = s.product_id) with
  | none => rfl
  | some p => rfl

/-- Claim C6, join part: with pairwise-distinct product ids the left join
keeps every sales row exactly once, with the category looked up from the
products table and null when no product matches. -/
theorem merge_sales_products_eq_map (sales : List SalesRow)
    (products : List ProductRow) (hp : (products.map (·.product_id)).Nodup) :
    merge_sales_products sales products =
      sales.map (fun s => spRowOf s
        ((products.find? (fun p => p.product_id = s.product_id)).bind
          (·.product_category_name))) := by
  induction sales with
  | nil => rfl
  | cons s rest ih =>
      have hstep : merge_sales_products (s :: rest) products =
          (match products.filter (fun p => p.product_id = s.product_id) with
           | [] => [spRowOf s none]
           | ps => ps.map (fun p => spRowOf s p.product_category_name)) ++
          merge_sales_products rest products := rfl
      rw [hstep, merge_one products hp s, ih, List.map_cons, List.singleton_append]

/-- The category table has one row per distinct non-null category, capped
at `top_n`. -/
theorem categoryTable_length (rows : List SPRow) (n : Nat) :
    (categoryTable rows n).length =
      min n ((rows.filterMap (·.product_category_name)).toFinset.card) := by
  unfold categoryTable sortValuesDesc
  rw [List.length_take, List.length_reverse, sortBy_length, List.length_map]
  unfold categoriesOf
  rw [sortBy_length, List.card_toFinset]

/-- The category table is sorted by descending total revenue. -/
theorem categoryTable_sorted (rows : List SPRow) (n : Nat) :
    (categoryTable rows n).Pairwise
      (fun a b => b.total_revenue ≤ a.total_revenue) := by
  unfold categoryTable sortValuesDesc
  refine List.Pairwise.sublist (List.take_sublist _ _) ?_
  rw [List.pairwise_reverse]
  refine sortBy_pairwise ?_ ?_ ?_ _
  · intro a b h
    exact of_decide_eq_true h
  · intro a b h
    exact le_of_not_le (of_decide_eq_false h)
  · intro a b c h1 h2
    exact le_trans h1 h2

/-- Each category-table row carries that category's aggregates: rounded
revenue sum, rounded mean line price, item count, distinct order count. -/
theorem categoryTable_fields (rows : List SPRow) (n : Nat) :
    ∀ c ∈ categoryTable rows n,
      c.total_revenue = round2
        (((rows.filter (fun r =>
          r.product_category_name = some c.product_category_name)).map (·.price)).sum) ∧
      c.avg_price = round2
        ((((rows.filter (fun r =>
            r.product_category_name = some c.product_category_name)).map (·.price)).sum) /
          ((rows.filter (fun r =>
            r.product_category_name = some c.product_category_name)).length : ℚ)) ∧
      c.items_sold = (rows.filter (fun r =>
        r.product_category_name = some c.product_category_name)).length ∧
      c.unique_orders = ((rows.filter (fun r =>
        r.product_category_name = some c.product_category_name)).map
          (·.order_id)).toFinset.card := by
  intro c hc
  unfold categoryTable sortValuesDesc at hc
  have hc2 := List.mem_of_mem_take hc
  rw [List.mem_reverse, sortBy_mem] at hc2
  rcases List.mem_map.mp hc2 with ⟨nm, _, hnm⟩
  subst hnm
  refine ⟨rfl, rfl, rfl, (List.card_toFinset _).symm⟩

/-- The product table has one row per distinct product id, capped at
`top_n`. -/
theorem productTable_length (rows : List SPRow) (n : Nat) :
    (productTable rows n).length =
      min n ((rows.map (·.product_id)).toFinset.card) := by
  unfold productTable sortValuesDesc
  rw [List.length_take, List.length_reverse, sortBy_length, List.length_map]
  unfold productIdsOf
  rw [sortBy_length, List.card_toFinset]

/-- The product table is sorted by descending total revenue. -/
theorem productTable_sorted (rows : List SPRow) (n : Nat) :
    (productTable rows n).Pairwise
      (fun a b => b.total_revenue ≤ a.total_revenue) := by
  unfold productTable sortValuesDesc
  refine List.Pairwise.sublist (List.take_sublist _ _) ?_
  rw [List.pairwise_reverse]
  refine sortBy_pairwise ?_ ?_ ?_ _
  · intro a b h
    exact of_decide_eq_true h
  · intro a b h
    exact le_of_not_le (of_decide_eq_false h)
  · intro a b c h1 h2
    exact le_trans h1 h2

/-- Amended C6: with pairwise-distinct product ids, the left join keeps
every sales row (null category when unmatched); the category table has
`min top_n (#distinct non-null categories)` rows — so top_n=3 over 5
categories gives exactly 3 —, both result tables are sorted descending
by total revenue, the product table has
`min top_n (#distinct product ids)` rows, and each category row carries
its category's aggregates.  Revenue ties do NOT keep the pre-truncation
original order: pandas realizes the descending sort by reversing an
ascending argsort, so tied rows come out in reversed pre-sort order. -/
theorem product_performance_join_and_topn (sales : List SalesRow)
    (products : List ProductRow) (top_n : Nat)
    (hp : (products.map (·.product_id)).Nodup) :
    merge_sales_products sales products =
      sales.map (fun s => spRowOf s
        ((products.find? (fun p => p.product_id = s.product_id)).bind
          (·.product_category_name))) ∧
    (analyze_product_performance sales products top_n).1.length =
      min top_n (((merge_sales_products sales products).filterMap
        (·.product_category_name)).toFinset.card) ∧
    (analyze_product_performance sales products top_n).1.Pairwise
      (fun a b => b.total_revenue ≤ a.total_revenue) ∧
    (∀ c ∈ (analyze_product_performance sales products top_n).1,
      c.total_revenue = round2
        ((((merge_sales_products sales products).filter (fun r =>
          r.product_category_name = some c.product_category_name)).map
            (·.price)).sum)) ∧
    (analyze_product_performance sales products top_n).2.length =
      min top_n (((merge_sales_products sales products).map
        (·.product_id)).toFinset.card) ∧
    (analyze_product_performance sales products top_n).2.Pairwise
      (fun a b => b.total_revenue ≤ a.total_revenue) :=
  ⟨merge_sales_products_eq_map sales products hp,
   categoryTable_length (merge_sales_products sales products) top_n,
   categoryTable_sorted (merge_sales_products sales products) top_n,
   fun c hc => (categoryTable_fields (merge_sales_products sales products) top_n c hc).1,
   productTable_length (merge_sales_products sales products) top_n,
   productTable_sorted (merge_sales_products sales products) top_n⟩

/-- Witness for C6 on five categories with top_n = 3: the category table
length is min 3 (number of distinct categories), which evaluates to 3. -/
theorem product_performance_join_and_topn_witness :
    (analyze_product_performance fiveCatSales fiveCatProducts 3).1.length =
      min 3 (((merge_sales_products fiveCatSales fiveCatProducts).filterMap
        (·.product_category_name)).toFinset.card) ∧
    min 3 (((merge_sales_products fiveCatSales fiveCatProducts).filterMap
        (·.product_category_name)).toFinset.card) = 3 :=
  ⟨(product_performance_join_and_topn fiveCatSales fiveCatProducts 3 (by decide)).2.1,
   by decide⟩

/-- Sorting a two-element list whose elements are already in order (by
`le`) leaves it unchanged. -/
theorem sortBy_pair (le : α → α → Bool) (a b : α) (h : le a b = true) :
    sortBy le [a, b] = [a, b] := by
  have h1 : sortBy le [a, b] = insertSorted le a [b] := rfl
  have h2 : insertSorted le a [b] =
      if le a b then [a, b] else b :: insertSorted le a [] := rfl
  rw [h1, h2, if_pos h]

/-- Counterexample to C6 as stated: two categories "alpha" and "beta"
with equal total revenue, whose pre-truncation (groupby) order is
["alpha", "beta"], come out of `analyze_product_performance` as
["beta", "alpha"] — the revenue tie is broken by REVERSED pre-truncation
order, not original order, because pandas realizes the descending sort
by reversing an ascending argsort. -/
theorem product_performance_tie_order_counterexample :
    categoriesOf (merge_sales_products tieSales tieProducts) = ["alpha", "beta"] ∧
    (categoryPerfOf (merge_sales_products tieSales tieProducts) "alpha").total_revenue =
      (categoryPerfOf (merge_sales_products tieSales tieProducts) "beta").total_revenue ∧
    (analyze_product_performance tieSales tieProducts 2).1.map
      (·.product_category_name) = ["beta", "alpha"] := by
  have hr10 : round2 10 = 10 := by
    unfold round2 roundHalfEven
    norm_num
  have hrowA : (merge_sales_products tieSales tieProducts).filter
      (fun r => r.product_category_name = some "alpha") =
      [{ product_id := 1, price := 10, order_id := 1,
         product_category_name := some "alpha" }] := by decide
  have hrowB : (merge_sales_products tieSales tieProducts).filter
      (fun r => r.product_category_name = some "beta") =
      [{ product_id := 2, price := 10, order_id := 2,
         product_category_name := some "beta" }] := by decide
  have hA : categoryPerfOf (merge_sales_products tieSales tieProducts) "alpha" =
      { product_category_name := "alpha", total_revenue := 10, avg_price := 10,
        items_sold := 1, unique_orders := 1 } := by
    unfold categoryPerfOf
    rw [hrowA]
    unfold spPriceSum spDistinctOrders
    norm_num [hr10]
  have hB : categoryPerfOf (merge_sales_products tieSales tieProducts) "beta" =
      { product_category_name := "beta", total_revenue := 10, avg_price := 10,
        items_sold := 1, unique_orders := 1 } := by
    unfold categoryPerfOf
    rw [hrowB]
    unfold spPriceSum spDistinctOrders
    norm_num [hr10]
  refine ⟨by decide, ?_, ?_⟩
  · rw [hA, hB]
  · show (categoryTable (merge_sales_products tieSales tieProducts) 2).map
      (·.product_category_name) = ["beta", "alpha"]
    have hcats : categoriesOf (merge_sales_products tieSales tieProducts) =
        ["alpha", "beta"] := by decide
    unfold categoryTable sortValuesDesc
    rw [hcats, List.map_cons, List.map_cons, List.map_nil, hA, hB,
      sortBy_pair catRevAsc
        { product_category_name := "alpha", total_revenue := 10, avg_price := 10,
          items_sold := 1, unique_orders := 1 }
        { product_category_name := "beta", total_revenue := 10, avg_price := 10,
          items_sold := 1, unique_orders := 1 }
        (by norm_num [catRevAsc])]
    rfl
